import Mathlib

/-!
Verification of the ChameleonRT viewer (`src/main.cpp`, `src/optix/render_optix.h`)
against its design specification.

The program is modelled by a shallow embedding: the event-handling and
per-frame code of `run_app` becomes explicit action traces, the control
flow of `main` and of the load/initialization phase of `run_app` becomes
functions from the externally-determined outcomes (loader results,
library-init success flags) to traces of observable actions plus an exit
outcome.  `float` literals of the source are modelled as the exact
rational values of their decimal literals.
-/

/- SDL2 event-type and key constants used by `run_app` (values from SDL2 headers). -/

def SDL_QUIT : Nat := 256

def SDL_KEYDOWN : Nat := 768

def SDL_WINDOWEVENT : Nat := 512

def SDL_MOUSEMOTION : Nat := 1024

def SDL_MOUSEWHEEL : Nat := 1027

def SDLK_ESCAPE : Nat := 27

def SDL_WINDOWEVENT_CLOSE : Nat := 14

/-- The fields of an `SDL_Event` that `run_app` reads: `event.type`,
`event.key.keysym.sym`, `event.window.event`, `event.window.windowID`. -/
structure SDL_Event where
  etype : Nat
  keysym : Nat
  windowEvent : Nat
  windowID : Nat
  deriving DecidableEq

/-- The two ImGui capture flags `run_app` reads from `ImGui::GetIO()`. -/
structure ImGuiFlags where
  wantCaptureKeyboard : Bool
  wantCaptureMouse : Bool
  deriving DecidableEq

/-- Which standard stream a message is printed to. -/
inductive StdStream where
  | stdoutS
  | stderrS
  deriving DecidableEq

/-- Observable actions of `run_app`: prints, resource creation during setup,
per-event handling, and the per-frame loop body steps. -/
inductive AppAction where
  | print (s : StdStream) (msg : String)
  | forwardUIEvent
  | setDone
  | cameraMouse (dt : ℚ)
  | ospInitCall
  | newOSPData (count : Nat) (fmt : String)
  | newFrameBuffer (w h : Nat) (fmt : String)
  | texStorage2D (w h : Nat)
  | imguiNewFrame
  | imguiBuildUI
  | imguiRenderCmd
  | setViewport
  | ospSetCameraParams
  | ospCommitCamera
  | ospSetRendererCamera
  | ospCommitRenderer
  | fbClear
  | renderFrame
  | mapFrameBuffer
  | texSubImage (w h : Nat)
  | unmapFrameBuffer
  | glClearScreen
  | drawFullscreenQuad
  | imguiDrawData
  | swapWindow
  deriving DecidableEq

/-- Per-event handling inside the `SDL_PollEvent` drain loop
(`main.cpp` lines 209-226), as the ordered list of actions taken for one
event: the event is first forwarded to ImGui, then the three termination
checks run, then the camera-mouse check. -/
def eventActions (ig : ImGuiFlags) (appWindowID : Nat) (e : SDL_Event) : List AppAction :=
  [AppAction.forwardUIEvent]
  ++ (if e.etype = SDL_QUIT then [AppAction.setDone] else [])
  ++ (if ig.wantCaptureKeyboard = false ∧ e.etype = SDL_KEYDOWN ∧ e.keysym = SDLK_ESCAPE then
        [AppAction.setDone] else [])
  ++ (if e.etype = SDL_WINDOWEVENT ∧ e.windowEvent = SDL_WINDOWEVENT_CLOSE
        ∧ e.windowID = appWindowID then [AppAction.setDone] else [])
  ++ (if ig.wantCaptureMouse = false ∧ (e.etype = SDL_MOUSEMOTION ∨ e.etype = SDL_MOUSEWHEEL) then
        [AppAction.cameraMouse (0.016 : ℚ)] else [])

/-- The effect of handling one polled event on the `done` flag
(`main.cpp` lines 211-222): three independent checks each set `done` to true. -/
def processEventDone (ig : ImGuiFlags) (appWindowID : Nat) (done : Bool) (e : SDL_Event) : Bool :=
  let d1 := if e.etype = SDL_QUIT then true else done
  let d2 := if ig.wantCaptureKeyboard = false ∧ e.etype = SDL_KEYDOWN ∧ e.keysym = SDLK_ESCAPE then
              true else d1
  let d3 := if e.etype = SDL_WINDOWEVENT ∧ e.windowEvent = SDL_WINDOWEVENT_CLOSE
              ∧ e.windowID = appWindowID then true else d2
  d3

/-- One full `while (SDL_PollEvent(...))` drain over the pending events of an
iteration, threading the `done` flag. -/
def drainDone (ig : ImGuiFlags) (appWindowID : Nat) (done : Bool) (events : List SDL_Event) : Bool :=
  events.foldl (processEventDone ig appWindowID) done

/-- An event that makes `run_app` leave the RUNNING state: a quit signal,
an escape key press while ImGui does not capture the keyboard, or a close
signal for the application window. -/
def isTerminationEvent (ig : ImGuiFlags) (appWindowID : Nat) (e : SDL_Event) : Prop :=
  e.etype = SDL_QUIT
  ∨ (ig.wantCaptureKeyboard = false ∧ e.etype = SDL_KEYDOWN ∧ e.keysym = SDLK_ESCAPE)
  ∨ (e.etype = SDL_WINDOWEVENT ∧ e.windowEvent = SDL_WINDOWEVENT_CLOSE
      ∧ e.windowID = appWindowID)

instance (ig : ImGuiFlags) (appWindowID : Nat) (e : SDL_Event) :
    Decidable (isTerminationEvent ig appWindowID e) := by
  unfold isTerminationEvent; infer_instance

theorem processEventDone_iff (ig : ImGuiFlags) (wid : Nat) (done : Bool) (e : SDL_Event) :
    processEventDone ig wid done e = true ↔ done = true ∨ isTerminationEvent ig wid e := by
  simp only [processEventDone, isTerminationEvent]
  by_cases h1 : e.etype = SDL_QUIT <;>
    by_cases h2 : ig.wantCaptureKeyboard = false ∧ e.etype = SDL_KEYDOWN ∧ e.keysym = SDLK_ESCAPE <;>
      by_cases h3 : e.etype = SDL_WINDOWEVENT ∧ e.windowEvent = SDL_WINDOWEVENT_CLOSE
          ∧ e.windowID = wid <;>
        simp [h1, h2, h3]

/-- C3: the application loop is a two-state machine on the `done` flag and the
flag becomes true over one event-poll cycle exactly when some polled event is a
quit signal, an escape press without ImGui keyboard capture, or a close signal
for the application's window; no other event sets it. -/
theorem claim_C3_loop_termination_iff (ig : ImGuiFlags) (wid : Nat) (done : Bool)
    (events : List SDL_Event) :
    drainDone ig wid done events = true ↔
      done = true ∨ ∃ e ∈ events, isTerminationEvent ig wid e := by
  induction events generalizing done with
  | nil => simp [drainDone]
  | cons e rest ih =>
    simp only [drainDone, List.foldl_cons] at *
    rw [ih (processEventDone ig wid done e), processEventDone_iff]
    constructor
    · rintro ((hd | ht) | ⟨x, hx, hterm⟩)
      · exact Or.inl hd
      · exact Or.inr ⟨e, by simp, ht⟩
      · exact Or.inr ⟨x, by simp [hx], hterm⟩
    · rintro (hd | ⟨x, hx, hterm⟩)
      · exact Or.inl (Or.inl hd)
      · rcases List.mem_cons.mp hx with h | h
        · exact Or.inl (Or.inr (h ▸ hterm))
        · exact Or.inr ⟨x, h, hterm⟩

/-- C7: for every polled event, forwarding to the ImGui overlay is the first
action taken, and the camera's mouse handler runs for the event if and only if
the event is a pointer-motion or scroll event and ImGui does not have mouse
capture. -/
theorem claim_C7_ui_first_camera_iff (ig : ImGuiFlags) (wid : Nat) (e : SDL_Event) :
    (eventActions ig wid e).head? = some AppAction.forwardUIEvent ∧
      ((∃ dt, AppAction.cameraMouse dt ∈ eventActions ig wid e) ↔
        ig.wantCaptureMouse = false ∧ (e.etype = SDL_MOUSEMOTION ∨ e.etype = SDL_MOUSEWHEEL)) := by
  constructor
  · simp [eventActions]
  · constructor
    · rintro ⟨dt, hdt⟩
      by_cases h4 : ig.wantCaptureMouse = false
          ∧ (e.etype = SDL_MOUSEMOTION ∨ e.etype = SDL_MOUSEWHEEL)
      · exact h4
      · exfalso
        by_cases h1 : e.etype = SDL_QUIT <;>
          by_cases h2 : ig.wantCaptureKeyboard = false ∧ e.etype = SDL_KEYDOWN
              ∧ e.keysym = SDLK_ESCAPE <;>
            by_cases h3 : e.etype = SDL_WINDOWEVENT ∧ e.windowEvent = SDL_WINDOWEVENT_CLOSE
                ∧ e.windowID = wid <;>
              simp_all [eventActions, SDL_QUIT, SDL_KEYDOWN, SDL_WINDOWEVENT, SDL_MOUSEMOTION,
                SDL_MOUSEWHEEL, SDLK_ESCAPE, SDL_WINDOWEVENT_CLOSE]
    · intro h
      refine ⟨(0.016 : ℚ), ?_⟩
      simp [eventActions, h]

/-- C9: whenever the camera's mouse handler is invoked while handling an event,
the frame-time delta passed to it is the constant 0.016 of `main.cpp` line 224,
independent of any measured elapsed time. -/
theorem claim_C9_camera_dt_constant (ig : ImGuiFlags) (wid : Nat) (e : SDL_Event) (dt : ℚ)
    (h : AppAction.cameraMouse dt ∈ eventActions ig wid e) : dt = (0.016 : ℚ) := by
  by_cases h1 : e.etype = SDL_QUIT <;>
    by_cases h2 : ig.wantCaptureKeyboard = false ∧ e.etype = SDL_KEYDOWN
        ∧ e.keysym = SDLK_ESCAPE <;>
      by_cases h3 : e.etype = SDL_WINDOWEVENT ∧ e.windowEvent = SDL_WINDOWEVENT_CLOSE
          ∧ e.windowID = wid <;>
        by_cases h4 : ig.wantCaptureMouse = false
            ∧ (e.etype = SDL_MOUSEMOTION ∨ e.etype = SDL_MOUSEWHEEL) <;>
          simp_all [eventActions, SDL_QUIT, SDL_KEYDOWN, SDL_WINDOWEVENT, SDL_MOUSEMOTION,
            SDL_MOUSEWHEEL, SDLK_ESCAPE, SDL_WINDOWEVENT_CLOSE]

/-- Witness for C9 at a concrete mouse-motion event with mouse capture off. -/
theorem claim_C9_witness : (0.016 : ℚ) = (0.016 : ℚ) :=
  claim_C9_camera_dt_constant ⟨false, false⟩ 1 ⟨SDL_MOUSEMOTION, 0, 0, 0⟩ (0.016 : ℚ)
    (by simp [eventActions, SDL_MOUSEMOTION, SDL_QUIT, SDL_KEYDOWN, SDL_WINDOWEVENT])

/-- The loop body after the event drain (`main.cpp` lines 228-267), as the
ordered trace of one iteration's actions: ImGui frame setup, camera push to
OSPRay, render, framebuffer map / texture upload / unmap, display blit, UI
draw, buffer swap. -/
def frameBodyTrace : List AppAction :=
  [ AppAction.imguiNewFrame, AppAction.imguiBuildUI, AppAction.imguiRenderCmd,
    AppAction.setViewport,
    AppAction.ospSetCameraParams, AppAction.ospCommitCamera,
    AppAction.ospSetRendererCamera, AppAction.ospCommitRenderer,
    AppAction.fbClear, AppAction.renderFrame,
    AppAction.mapFrameBuffer, AppAction.texSubImage 1280 720, AppAction.unmapFrameBuffer,
    AppAction.glClearScreen, AppAction.drawFullscreenQuad,
    AppAction.imguiDrawData, AppAction.swapWindow ]

/-- Membership in `if c then [x] else []` forces equality with `x`. -/
theorem mem_ite_singleton {c : Prop} [Decidable c] {a x : AppAction}
    (h : a ∈ if c then [x] else ([] : List AppAction)) : a = x := by
  split at h <;> simp_all

/-- Any action taken while handling one event is the UI forward, a `done`
update, or a camera-mouse call with delta 0.016. -/
theorem mem_eventActions (ig : ImGuiFlags) (wid : Nat) (e : SDL_Event) (a : AppAction)
    (h : a ∈ eventActions ig wid e) :
    a = AppAction.forwardUIEvent ∨ a = AppAction.setDone
      ∨ a = AppAction.cameraMouse (0.016 : ℚ) := by
  simp only [eventActions, List.mem_append, List.mem_cons, List.not_mem_nil, or_false] at h
  rcases h with (((h | h) | h) | h) | h
  · exact Or.inl h
  · exact Or.inr (Or.inl (mem_ite_singleton h))
  · exact Or.inr (Or.inl (mem_ite_singleton h))
  · exact Or.inr (Or.inl (mem_ite_singleton h))
  · exact Or.inr (Or.inr (mem_ite_singleton h))

/-- C10: in every loop iteration the frame buffer is mapped exactly once, read
exactly once (the texture upload), and unmapped, in that order, with the unmap
preceding the UI draw, the buffer swap, and (over two consecutive iterations)
the next render call; event handling never maps or unmaps, so the mapped
pointer is not retained across iterations. -/
theorem claim_C10_map_unmap_discipline :
    frameBodyTrace.count AppAction.mapFrameBuffer = 1 ∧
    frameBodyTrace.count (AppAction.texSubImage 1280 720) = 1 ∧
    frameBodyTrace.count AppAction.unmapFrameBuffer = 1 ∧
    frameBodyTrace.indexOf AppAction.mapFrameBuffer <
      frameBodyTrace.indexOf (AppAction.texSubImage 1280 720) ∧
    frameBodyTrace.indexOf (AppAction.texSubImage 1280 720) <
      frameBodyTrace.indexOf AppAction.unmapFrameBuffer ∧
    frameBodyTrace.indexOf AppAction.unmapFrameBuffer <
      frameBodyTrace.indexOf AppAction.imguiDrawData ∧
    frameBodyTrace.indexOf AppAction.unmapFrameBuffer <
      frameBodyTrace.indexOf AppAction.swapWindow ∧
    frameBodyTrace.indexOf AppAction.unmapFrameBuffer <
      frameBodyTrace.length + frameBodyTrace.indexOf AppAction.renderFrame ∧
    (∀ ig wid e, AppAction.mapFrameBuffer ∉ eventActions ig wid e ∧
      AppAction.unmapFrameBuffer ∉ eventActions ig wid e) := by
  refine ⟨by decide, by decide, by decide, by decide, by decide, by decide, by decide,
    by decide, ?_⟩
  intro ig wid e
  constructor <;>
  · intro hmem
    rcases mem_eventActions ig wid e _ hmem with h | h | h <;> simp at h

/- Model of the GPU backend's `render` member.  Its implementation is not part
of the sources here: `render_optix.h` only declares
`double render(pos, dir, up, fovy, camera_changed)`. -/

/-- A 3-component vector (`glm::vec3`), components as exact rationals. -/
structure Vec3 where
  x : ℚ
  y : ℚ
  z : ℚ
  deriving DecidableEq

/-- The camera-dependent part of the launch parameters held by the backend. -/
structure ViewParams where
  pos : Vec3
  dir : Vec3
  up : Vec3
  fovy : ℚ
  deriving DecidableEq

/-- The backend state the claim observes: launch-parameter camera block and the
frame accumulation counter (`frame_id` of `render_optix.h` line 25). -/
structure RenderOptiXState where
  viewParams : ViewParams
  frame_id : Nat
  deriving DecidableEq

/-- Modelled from the spec: the body of `RenderOptiX::render` is not under the
sources here (`render_optix.h` lines 32-33 only declare it), so its effect on
backend state follows §4.3 of the specification: it "updates camera-dependent
launch parameters only when `camera_changed` is true" and "advances an internal
frame accumulation counter". -/
def renderOptiXRender (st : RenderOptiXState) (pos dir up : Vec3) (fovy : ℚ)
    (camera_changed : Bool) : RenderOptiXState :=
  let st1 := if camera_changed then
      { st with viewParams := ⟨pos, dir, up, fovy⟩ }
    else st
  { st1 with frame_id := st1.frame_id + 1 }

/-- C1: after a render call, a second render call with the same camera
parameters and `camera_changed = false` leaves the backend's camera-dependent
launch-parameter state unchanged (no re-upload). -/
theorem claim_C1_no_camera_reupload (st : RenderOptiXState) (pos dir up : Vec3)
    (fovy : ℚ) (c : Bool) :
    ((renderOptiXRender (renderOptiXRender st pos dir up fovy c)
        pos dir up fovy false).viewParams =
      (renderOptiXRender st pos dir up fovy c).viewParams) := by
  simp [renderOptiXRender]

/- Model of the model-loading and setup phase of `run_app` and of `main`. -/

/-- `tinyobj::index_t` as read by `run_app`: only `vertex_index` is used. -/
structure TinyObjIndex where
  vertex_index : Int
  deriving DecidableEq

/-- `tinyobj::mesh_t` as read by `run_app`: the per-shape index list. -/
structure TinyObjMesh where
  indices : List TinyObjIndex
  deriving DecidableEq

/-- `tinyobj::shape_t` as read by `run_app`: name and mesh. -/
structure TinyObjShape where
  name : String
  mesh : TinyObjMesh
  deriving DecidableEq

/-- The outcome of `tinyobj::LoadObj` as observed by `run_app`: return flag,
warning and error strings, the flat vertex array `attrib.vertices` (floats as
rationals), and the shape list. -/
structure ObjLoadResult where
  ret : Bool
  warn : String
  err : String
  vertices : List ℚ
  shapes : List TinyObjShape
  deriving DecidableEq

/-- The index-flattening loop of `run_app` (`main.cpp` lines 128-137): for each
shape in file order, push each `vertex_index` of its mesh onto the end of the
`indices` vector. -/
def buildIndices (shapes : List TinyObjShape) : List Int :=
  shapes.foldl
    (fun acc s => s.mesh.indices.foldl (fun acc2 i => acc2 ++ [i.vertex_index]) acc) []

/-- The per-shape vertex-index lists, in shape order. -/
def shapeIndexLists (shapes : List TinyObjShape) : List (List Int) :=
  shapes.map (fun s => s.mesh.indices.map (fun i => i.vertex_index))

/-- Total triangle count across shapes: the sum of the per-shape counts
`mesh.indices.size() / 3` that `run_app` logs (`main.cpp` line 132). -/
def totalTriangles (shapes : List TinyObjShape) : Nat :=
  (shapes.map (fun s => s.mesh.indices.length / 3)).sum

/-- How the load/setup phase of `run_app` ends. -/
inductive RunAppOutcome where
  | exited (code : Int)
  | threw (msg : String)
  | enteredLoop
  deriving DecidableEq

/-- The load and setup phase of `run_app` (`main.cpp` lines 103-196) up to the
render loop, as a function of the loader's result and `ospInit`'s success:
the ordered trace of observable actions and how the phase ends.  The source
wraps the path of the load-failure message in single-quote characters; they
are omitted from the modelled string. -/
def runAppSetup (path : String) (load : ObjLoadResult) (ospOk : Bool) :
    List AppAction × RunAppOutcome :=
  let warnActs : List AppAction :=
    if load.warn ≠ "" then
      [AppAction.print StdStream.stdoutS ("Warning loading model: " ++ load.warn ++ "\n")]
    else []
  if load.err ≠ "" then
    (warnActs ++
      [AppAction.print StdStream.stderrS ("Error loading model: " ++ load.err ++ "\n")],
      RunAppOutcome.exited 1)
  else if load.ret = false then
    (warnActs ++
      [AppAction.print StdStream.stderrS
        ("Failed to load OBJ model " ++ path ++ ", aborting\n")],
      RunAppOutcome.exited 1)
  else
    let shapeLogs := load.shapes.map (fun s =>
      AppAction.print StdStream.stdoutS
        ("Loading shape " ++ s.name ++ ", has "
          ++ toString (s.mesh.indices.length / 3) ++ " triangles\n"))
    let indices := buildIndices load.shapes
    if ospOk = false then
      (warnActs ++ shapeLogs ++
        [AppAction.ospInitCall,
         AppAction.print StdStream.stdoutS "Failed to init OSPRay\n"],
        RunAppOutcome.threw "Failed to init OSPRay")
    else
      (warnActs ++ shapeLogs ++
        [AppAction.ospInitCall,
         AppAction.newOSPData (load.vertices.length / 3) "OSP_FLOAT3",
         AppAction.newOSPData (indices.length / 3) "OSP_INT3",
         AppAction.newFrameBuffer 1280 720 "OSP_FB_SRGBA",
         AppAction.texStorage2D 1280 720],
        RunAppOutcome.enteredLoop)

/-- Observable actions of `main` (`main.cpp` lines 44-101). -/
inductive MainAct where
  | printM (s : StdStream) (msg : String)
  | sdlInitCall
  | createWindow (w h : Nat)
  | createGLContext
  | loadGLCall
  | imguiInit
  | callRunApp
  | shutdown
  deriving DecidableEq

/-- Success flags `main` branches on: SDL init (with its error string) and
OpenGL function loading. -/
structure InitEnv where
  sdlOk : Bool
  sdlErr : String
  oglOk : Bool
  deriving DecidableEq

/-- `main` (`main.cpp` lines 44-101): argument check, SDL init, window and GL
context creation, GL function loading, ImGui setup, the `run_app` call, and
teardown; returns the ordered trace of actions and `main`'s return value. -/
def mainModel (argv : List String) (env : InitEnv) : List MainAct × Int :=
  if argv.length < 2 then
    ([MainAct.printM StdStream.stdoutS ("Usage: " ++ argv.headI ++ " <obj file>\n")], 1)
  else if env.sdlOk = false then
    ([MainAct.sdlInitCall,
      MainAct.printM StdStream.stderrS ("Failed to init SDL: " ++ env.sdlErr ++ "\n")], -1)
  else if env.oglOk = false then
    ([MainAct.sdlInitCall, MainAct.createWindow 1280 720, MainAct.createGLContext,
      MainAct.loadGLCall,
      MainAct.printM StdStream.stderrS "Failed to initialize OpenGL\n"], 1)
  else
    ([MainAct.sdlInitCall, MainAct.createWindow 1280 720, MainAct.createGLContext,
      MainAct.loadGLCall, MainAct.imguiInit, MainAct.callRunApp, MainAct.shutdown], 0)

/-- Pushing mapped elements one at a time with `foldl` appends the mapped list. -/
theorem foldl_push_eq_append (f : TinyObjIndex → Int) (l : List TinyObjIndex) :
    ∀ acc : List Int, l.foldl (fun a i => a ++ [f i]) acc = acc ++ l.map f := by
  induction l with
  | nil => intro acc; simp
  | cons x xs ih => intro acc; simp [ih]

theorem buildIndices_foldl (shapes : List TinyObjShape) :
    ∀ acc : List Int,
      shapes.foldl
        (fun a s => s.mesh.indices.foldl (fun a2 i => a2 ++ [i.vertex_index]) a) acc
        = acc ++ (shapeIndexLists shapes).flatten := by
  induction shapes with
  | nil => intro acc; simp [shapeIndexLists]
  | cons s ss ih =>
    intro acc
    simp only [List.foldl_cons]
    rw [foldl_push_eq_append, ih]
    simp [shapeIndexLists, List.append_assoc]

/-- The `indices` vector built by `run_app` is the in-order concatenation of
the per-shape vertex-index lists. -/
theorem buildIndices_eq_flatten (shapes : List TinyObjShape) :
    buildIndices shapes = (shapeIndexLists shapes).flatten := by
  simpa using buildIndices_foldl shapes []

/-- When each shape's index list has length a multiple of 3, the concatenated
index list has length three times the total triangle count. -/
theorem length_flatten_eq_three_mul (shapes : List TinyObjShape)
    (h3 : ∀ s ∈ shapes, 3 ∣ s.mesh.indices.length) :
    ((shapeIndexLists shapes).flatten).length = 3 * totalTriangles shapes := by
  induction shapes with
  | nil => simp [shapeIndexLists, totalTriangles]
  | cons s ss ih =>
    have hs := h3 s (List.mem_cons_self s ss)
    have ihh := ih (fun x hx => h3 x (List.mem_cons_of_mem s hx))
    simp only [shapeIndexLists, List.map_cons, List.flatten_cons, List.length_append,
      List.length_map, totalTriangles, List.sum_cons]
    simp only [shapeIndexLists, totalTriangles] at ihh
    omega

/-- C2: on a successful load, the index buffer handed to the backend is the
in-order concatenation of the per-shape vertex indices with length 3*N for N
total triangles, and the vertex count handed to the backend is the flat vertex
array length divided by 3. -/
theorem claim_C2_geometry_handoff (path : String) (load : ObjLoadResult)
    (h3 : ∀ s ∈ load.shapes, 3 ∣ s.mesh.indices.length)
    (he : load.err = "") (hr : load.ret = true) :
    buildIndices load.shapes = (shapeIndexLists load.shapes).flatten ∧
    (buildIndices load.shapes).length = 3 * totalTriangles load.shapes ∧
    AppAction.newOSPData (load.vertices.length / 3) "OSP_FLOAT3"
      ∈ (runAppSetup path load true).1 ∧
    AppAction.newOSPData ((buildIndices load.shapes).length / 3) "OSP_INT3"
      ∈ (runAppSetup path load true).1 := by
  refine ⟨buildIndices_eq_flatten load.shapes, ?_, ?_, ?_⟩
  · rw [buildIndices_eq_flatten]
    exact length_flatten_eq_three_mul load.shapes h3
  · simp [runAppSetup, he, hr]
  · simp [runAppSetup, he, hr]

/-- A small successful load: one shape with a single triangle over three
vertex records. -/
def oneTriLoad : ObjLoadResult :=
  ⟨true, "", "", [0, 0, 0, 1, 0, 0, 0, 1, 0], [⟨"tri", ⟨[⟨0⟩, ⟨1⟩, ⟨2⟩]⟩⟩]⟩

/-- Witness for C2 at a concrete one-triangle load. -/
theorem claim_C2_witness :
    (buildIndices oneTriLoad.shapes).length = 3 * totalTriangles oneTriLoad.shapes :=
  (claim_C2_geometry_handoff "model.obj" oneTriLoad (by decide) rfl rfl).2.1

/-- C4: with fewer than two arguments, `main` prints exactly one usage line on
standard output that contains the program name and returns 1, creating no
window, calling neither the loader nor the renderer (`run_app` is not
reached). -/
theorem claim_C4_usage_exit (argv : List String) (env : InitEnv)
    (h : argv.length < 2) :
    (mainModel argv env).2 = 1 ∧
    (mainModel argv env).1 =
      [MainAct.printM StdStream.stdoutS ("Usage: " ++ argv.headI ++ " <obj file>\n")] ∧
    (∃ pre post, "Usage: " ++ argv.headI ++ " <obj file>\n" = pre ++ argv.headI ++ post) ∧
    (∀ w h2, MainAct.createWindow w h2 ∉ (mainModel argv env).1) ∧
    MainAct.callRunApp ∉ (mainModel argv env).1 := by
  refine ⟨?_, ?_, ⟨"Usage: ", " <obj file>\n", rfl⟩, ?_, ?_⟩
  · simp [mainModel, h]
  · simp [mainModel, h]
  · intro w h2
    simp [mainModel, h]
  · simp [mainModel, h]

/-- Witness for C4 when invoked with only the program name. -/
theorem claim_C4_witness : (mainModel ["rtobj"] ⟨true, "", true⟩).2 = 1 :=
  (claim_C4_usage_exit ["rtobj"] ⟨true, "", true⟩ (by decide)).1

/-- C5: warnings alone are logged on standard output and the load continues; a
nonempty loader error string is printed and the process exits with status 1; a
failed load with empty error string prints an error mentioning the file path
and exits with status 1. -/
theorem claim_C5_load_error_handling (path : String) (load : ObjLoadResult) :
    (load.err = "" ∧ load.ret = true →
      (runAppSetup path load true).2 = RunAppOutcome.enteredLoop ∧
      (load.warn ≠ "" →
        AppAction.print StdStream.stdoutS ("Warning loading model: " ++ load.warn ++ "\n")
          ∈ (runAppSetup path load true).1)) ∧
    (load.err ≠ "" →
      (runAppSetup path load true).2 = RunAppOutcome.exited 1 ∧
      AppAction.print StdStream.stderrS ("Error loading model: " ++ load.err ++ "\n")
        ∈ (runAppSetup path load true).1) ∧
    (load.err = "" ∧ load.ret = false →
      (runAppSetup path load true).2 = RunAppOutcome.exited 1 ∧
      ∃ pre post,
        AppAction.print StdStream.stderrS (pre ++ path ++ post)
          ∈ (runAppSetup path load true).1) := by
  refine ⟨?_, ?_, ?_⟩
  · rintro ⟨he, hret⟩
    constructor
    · simp [runAppSetup, he, hret]
    · intro hw
      simp [runAppSetup, he, hret, hw]
  · intro he
    constructor
    · simp [runAppSetup, he]
    · simp [runAppSetup, he]
  · rintro ⟨he, hret⟩
    refine ⟨?_, "Failed to load OBJ model ", ", aborting\n", ?_⟩
    · simp [runAppSetup, he, hret]
    · simp [runAppSetup, he, hret]

/-- Witness for C5 at a load with a nonempty error string. -/
theorem claim_C5_witness :
    (runAppSetup "model.obj" ⟨true, "", "parse error", [], []⟩ true).2 =
      RunAppOutcome.exited 1 :=
  ((claim_C5_load_error_handling "model.obj" ⟨true, "", "parse error", [], []⟩).2.1
    (by decide)).1

/-- A successful loader result used to exhibit the OSPRay-init failure path. -/
def okLoad : ObjLoadResult :=
  ⟨true, "", "", [0, 0, 0, 1, 0, 0, 0, 1, 0], [⟨"s", ⟨[⟨0⟩, ⟨1⟩, ⟨2⟩]⟩⟩]⟩

/-- C6 counterexample: when the ray-tracing-library init (`ospInit`) fails,
`run_app` reports the failure on standard output — `main.cpp` line 140 uses
`std::cout` — and writes nothing to standard error, so "every initialization
failure ... is reported to standard error" is false at this input. -/
theorem claim_C6_counterexample :
    (runAppSetup "model.obj" okLoad false).2 = RunAppOutcome.threw "Failed to init OSPRay" ∧
    AppAction.print StdStream.stdoutS "Failed to init OSPRay\n"
      ∈ (runAppSetup "model.obj" okLoad false).1 ∧
    ∀ msg, AppAction.print StdStream.stderrS msg ∉ (runAppSetup "model.obj" okLoad false).1 := by
  refine ⟨by decide, by decide, ?_⟩
  intro msg
  simp [runAppSetup, okLoad]

/-- C6 (amended): every initialization failure is fatal and attempted once,
with no retry; the SDL-init failure is reported to standard error and `main`
returns -1, the OpenGL-loading failure is reported to standard error and
`main` returns 1, and the ray-tracing-library (OSPRay) init failure is
reported on standard output and raises an exception that is caught nowhere
in this code. -/
theorem claim_C6_amended_init_failures (argv : List String) (env : InitEnv)
    (path : String) (load : ObjLoadResult) :
    (2 ≤ argv.length → env.sdlOk = false →
      (mainModel argv env).2 = -1 ∧
      MainAct.printM StdStream.stderrS ("Failed to init SDL: " ++ env.sdlErr ++ "\n")
        ∈ (mainModel argv env).1 ∧
      (mainModel argv env).1.count MainAct.sdlInitCall = 1) ∧
    (2 ≤ argv.length → env.sdlOk = true → env.oglOk = false →
      (mainModel argv env).2 = 1 ∧
      MainAct.printM StdStream.stderrS "Failed to initialize OpenGL\n"
        ∈ (mainModel argv env).1 ∧
      (mainModel argv env).1.count MainAct.loadGLCall = 1) ∧
    (load.err = "" → load.ret = true →
      (runAppSetup path load false).2 = RunAppOutcome.threw "Failed to init OSPRay" ∧
      AppAction.print StdStream.stdoutS "Failed to init OSPRay\n"
        ∈ (runAppSetup path load false).1 ∧
      (runAppSetup path load false).1.count AppAction.ospInitCall = 1) := by
  refine ⟨?_, ?_, ?_⟩
  · intro hargs hsdl
    have hlt : ¬ argv.length < 2 := by omega
    refine ⟨?_, ?_, ?_⟩ <;> simp [mainModel, hlt, hsdl]
  · intro hargs hsdl hogl
    have hlt : ¬ argv.length < 2 := by omega
    refine ⟨?_, ?_, ?_⟩ <;> simp [mainModel, hlt, hsdl, hogl]
  · intro he hret
    refine ⟨?_, ?_, ?_⟩
    · simp [runAppSetup, he, hret]
    · simp [runAppSetup, he, hret]
    · have hsl : (load.shapes.map (fun s =>
          AppAction.print StdStream.stdoutS
            ("Loading shape " ++ s.name ++ ", has "
              ++ toString (s.mesh.indices.length / 3) ++ " triangles\n"))).count
            AppAction.ospInitCall = 0 := by
        rw [List.count_eq_zero]
        simp
      simp [runAppSetup, he, hret, List.count_append, hsl]
      split <;> simp

/-- Witness for the amended C6 at a concrete SDL-init failure. -/
theorem claim_C6_witness :
    (mainModel ["rtobj", "model.obj"] ⟨false, "no display", true⟩).2 = -1 :=
  ((claim_C6_amended_init_failures ["rtobj", "model.obj"] ⟨false, "no display", true⟩
    "model.obj" okLoad).1 (by decide) rfl).1

/-- C8: the window is created at 1280x720 and at no other size, the OSPRay
framebuffer and the display texture are allocated at exactly 1280x720 during
setup, every loop iteration uploads one full 1280x720 image, and neither event
handling nor the loop body ever allocates a framebuffer or texture, so the
dimensions never change (in particular not on a window-resize event). -/
theorem claim_C8_fixed_resolution (argv : List String) (env : InitEnv)
    (path : String) (load : ObjLoadResult)
    (hargs : 2 ≤ argv.length) (hsdl : env.sdlOk = true) (hogl : env.oglOk = true)
    (he : load.err = "") (hret : load.ret = true) :
    MainAct.createWindow 1280 720 ∈ (mainModel argv env).1 ∧
    (∀ w h, MainAct.createWindow w h ∈ (mainModel argv env).1 → w = 1280 ∧ h = 720) ∧
    AppAction.newFrameBuffer 1280 720 "OSP_FB_SRGBA" ∈ (runAppSetup path load true).1 ∧
    AppAction.texStorage2D 1280 720 ∈ (runAppSetup path load true).1 ∧
    frameBodyTrace.count (AppAction.texSubImage 1280 720) = 1 ∧
    (∀ w h fmt, AppAction.newFrameBuffer w h fmt ∉ frameBodyTrace) ∧
    (∀ w h, AppAction.texStorage2D w h ∉ frameBodyTrace) ∧
    (∀ ig wid e w h fmt, AppAction.newFrameBuffer w h fmt ∉ eventActions ig wid e) ∧
    (∀ ig wid e w h, AppAction.texStorage2D w h ∉ eventActions ig wid e) := by
  have hlt : ¬ argv.length < 2 := by omega
  refine ⟨?_, ?_, ?_, ?_, by decide, ?_, ?_, ?_, ?_⟩
  · simp [mainModel, hlt, hsdl, hogl]
  · intro w h hmem
    simp only [mainModel, hlt, if_neg, hsdl, hogl] at hmem
    simp at hmem
    rcases hmem with ⟨hw, hh⟩
    exact ⟨hw, hh⟩
  · simp [runAppSetup, he, hret]
  · simp [runAppSetup, he, hret]
  · intro w h fmt
    simp [frameBodyTrace]
  · intro w h
    simp [frameBodyTrace]
  · intro ig wid e w h fmt hmem
    rcases mem_eventActions ig wid e _ hmem with h | h | h <;> simp at h
  · intro ig wid e w h hmem
    rcases mem_eventActions ig wid e _ hmem with h | h | h <;> simp at h

/-- Witness for C8 at concrete arguments, environment, and load. -/
theorem claim_C8_witness :
    MainAct.createWindow 1280 720
      ∈ (mainModel ["rtobj", "model.obj"] ⟨true, "", true⟩).1 :=
  (claim_C8_fixed_resolution ["rtobj", "model.obj"] ⟨true, "", true⟩ "model.obj"
    oneTriLoad (by decide) rfl rfl rfl rfl).1

/-- Witness for C10's universally quantified part at a concrete quit event. -/
theorem claim_C10_witness :
    AppAction.mapFrameBuffer ∉ eventActions ⟨false, false⟩ 1 ⟨256, 0, 0, 0⟩ :=
  (claim_C10_map_unmap_discipline.2.2.2.2.2.2.2.2 ⟨false, false⟩ 1 ⟨256, 0, 0, 0⟩).1
